import Mathlib

/-!
Verification development for the rate-limiting and graceful-shutdown core of
`mcp-debugger-core`.

The repository ships the test suites for these two modules
(`src/unnamed/part_002` for `RateLimiter`, `src/src/lib/shutdown-handler.coverage.spec.ts`
for `GracefulShutdownHandler`), while the implementation files `rate-limiter.ts`
and `shutdown-handler.ts` themselves are not under `src/`.  The definitions
below are therefore modelled from the specification (sections 3, 4.1, 4.2, 5 of
`spec.md`), with the exact log-message strings taken from the shipped test
files.  Machine time (`Date.now()` milliseconds) is modelled as `Nat` and passed
explicitly to every time-dependent operation; the single-threaded event-loop
model of section 5 lets asynchronous interleavings be modelled as sequential
applications of synchronous steps.
-/

namespace Spec2Proof

/-- Association-list lookup keyed by decidable equality; models `Map.get`. -/
def lookupKey {α β : Type} [DecidableEq α] : α → List (α × β) → Option β
  | _, [] => none
  | k, (k', v) :: rest => if k = k' then some v else lookupKey k rest

/-- Association-list insert-or-replace; models `Map.set`. -/
def insertKey {α β : Type} [DecidableEq α] (k : α) (v : β) : List (α × β) → List (α × β)
  | [] => [(k, v)]
  | (k', v') :: rest => if k = k' then (k, v) :: rest else (k', v') :: insertKey k v rest

namespace RateLimit

/-- Modelled from the spec: per operation-type rate-limit configuration
`{ maxRequests, windowMs }` (spec section 3; `rate-limiter.ts` is not under `src/`). -/
structure RateLimitConfig where
  maxRequests : Nat
  windowMs : Nat
deriving Repr, DecidableEq

/-- Modelled from the spec: per (operation-type, identifier) window entry
`{ count, windowStart }` (spec section 3). -/
structure WindowEntry where
  count : Nat
  windowStart : Nat
deriving Repr, DecidableEq

/-- Modelled from the spec: per operation-type cumulative metrics, together with
the metrics-recording window's current count (spec section 3). -/
structure OperationMetrics where
  requestCount : Nat
  limitExceeded : Nat
  currentWindowCount : Nat
deriving Repr, DecidableEq

/-- Modelled from the spec: the `RateLimiter` state — optional default
configuration supplied at construction, per-operation-type configs, window
entries keyed by (operation-type, identifier), and per-operation-type metrics. -/
structure RateLimiter where
  defaultConfig : Option RateLimitConfig
  limits : List (String × RateLimitConfig)
  entries : List ((String × String) × WindowEntry)
  metrics : List (String × OperationMetrics)
deriving Repr, DecidableEq

/-- A fresh limiter, optionally constructed with a default configuration. -/
def RateLimiter.empty (dc : Option RateLimitConfig) : RateLimiter :=
  ⟨dc, [], [], []⟩

/-- Modelled from the spec: `setLimit(operationType, config)` registers or
replaces the limit for an operation type; the metrics record is created on
first configuration (spec sections 3, 4.1). -/
def setLimit (rl : RateLimiter) (op : String) (cfg : RateLimitConfig) : RateLimiter :=
  { rl with
    limits := insertKey op cfg rl.limits,
    metrics :=
      match lookupKey op rl.metrics with
      | some _ => rl.metrics
      | none => insertKey op ⟨0, 0, 0⟩ rl.metrics }

/-- `hasLimit(operationType)`. -/
def hasLimit (rl : RateLimiter) (op : String) : Bool :=
  (lookupKey op rl.limits).isSome

/-- The TypeScript-visible shape of the optional `identifier` argument:
omitted, `undefined`, `null`, or a string. -/
inductive IdentArg where
  | omitted
  | undef
  | nullv
  | str (s : String)
deriving Repr, DecidableEq

/-- Modelled from the spec: "If `identifier` is omitted, `null`, or empty
string, substitutes the literal default identifier `\"default\"`"
(spec section 4.1; the shipped tests also exercise explicit `undefined`). -/
def resolveIdentifier : IdentArg → String
  | .omitted => "default"
  | .undef => "default"
  | .nullv => "default"
  | .str s => if s = "" then "default" else s

/-- The implicit operation type under which identifier-only checks against the
default configuration are tracked (spec section 4.1, resolution branch (b)). -/
def implicitOperationType : String := "__default__"

/-- Result of a non-throwing check: `{ allowed, retryAfter? }`. -/
structure CheckResult where
  allowed : Bool
  retryAfter : Option Nat
deriving Repr, DecidableEq

/-- Modelled from the spec: `retryAfter = ceil((windowStart + windowMs - now) / 1000)`,
clamped to at least 1 (spec section 4.1). -/
def retryAfterSeconds (windowStart windowMs now : Nat) : Nat :=
  max 1 ((windowStart + windowMs - now + 999) / 1000)

/-- Modelled from the spec, the window algorithm (spec section 4.1): if no
entry exists or `elapsed ≥ windowMs`, start a fresh window with `count = 1`,
`windowStart = now`, allowed; otherwise increment `count`, allowed iff
`count ≤ maxRequests`, else rejected with the clamped `retryAfter`. -/
def windowCheck (cfg : RateLimitConfig) (entry : Option WindowEntry) (now : Nat) :
    CheckResult × WindowEntry :=
  match entry with
  | none => (⟨true, none⟩, ⟨1, now⟩)
  | some e =>
    if cfg.windowMs ≤ now - e.windowStart then
      (⟨true, none⟩, ⟨1, now⟩)
    else
      let c := e.count + 1
      if c ≤ cfg.maxRequests then
        (⟨true, none⟩, ⟨c, e.windowStart⟩)
      else
        (⟨false, some (retryAfterSeconds e.windowStart cfg.windowMs now)⟩, ⟨c, e.windowStart⟩)

/-- Modelled from the spec: every check (even a rejected one) increments the
per-operation-type `requestCount`; rejections increment `limitExceeded`; the
current window count is recorded (spec sections 3, 4.1). -/
def bumpMetrics (m : Option OperationMetrics) (allowed : Bool) (windowCount : Nat) :
    OperationMetrics :=
  let m0 := m.getD ⟨0, 0, 0⟩
  { requestCount := m0.requestCount + 1,
    limitExceeded := m0.limitExceeded + (if allowed then 0 else 1),
    currentWindowCount := windowCount }

/-- The tracked check against a concrete configuration and key: runs the window
algorithm and applies both state side effects (entry update, metrics bump). -/
def trackedCheck (rl : RateLimiter) (cfg : RateLimitConfig) (metricsOp : String)
    (key : String × String) (now : Nat) : CheckResult × RateLimiter :=
  let r := windowCheck cfg (lookupKey key rl.entries) now
  (r.1,
    { rl with
      entries := insertKey key r.2 rl.entries,
      metrics := insertKey metricsOp
        (bumpMetrics (lookupKey metricsOp rl.metrics) r.1.allowed r.2.count) rl.metrics })

/-- Modelled from the spec: `checkLimit` after identifier resolution.
Resolution order (spec section 4.1): (a) explicit per-operation-type config;
(b) else the default config, treating the first argument as an identifier under
the implicit operation type; (c) else allow unconditionally with no tracking. -/
def checkLimitResolved (rl : RateLimiter) (first : String) (rid : String) (now : Nat) :
    CheckResult × RateLimiter :=
  match lookupKey first rl.limits with
  | some cfg => trackedCheck rl cfg first (first, rid) now
  | none =>
    match rl.defaultConfig with
    | some cfg => trackedCheck rl cfg implicitOperationType (implicitOperationType, first) now
    | none => (⟨true, none⟩, rl)

/-- Modelled from the spec: `checkLimit(operationType, identifier?)` — never
throws; resolves the identifier, then dispatches per the resolution order. -/
def checkLimit (rl : RateLimiter) (first : String) (ident : IdentArg) (now : Nat) :
    CheckResult × RateLimiter :=
  checkLimitResolved rl first (resolveIdentifier ident) now

/-- The typed error thrown by the throwing API: carries `operationType` and
`retryAfter` in seconds. -/
structure RateLimitError where
  operationType : String
  retryAfter : Nat
deriving Repr, DecidableEq

/-- Modelled from the spec: `checkLimitOrThrow(operationType, identifier?)` —
same resolution and counting semantics as `checkLimit`; throws a
`RateLimitError` when rejected, otherwise returns nothing (spec section 4.1). -/
def checkLimitOrThrow (rl : RateLimiter) (first : String) (ident : IdentArg) (now : Nat) :
    Except RateLimitError Unit × RateLimiter :=
  let r := checkLimit rl first ident now
  if r.1.allowed then (Except.ok (), r.2)
  else (Except.error ⟨first, (r.1.retryAfter).getD 1⟩, r.2)

/-- `getStatus` view: `{ count, limit, resetAt }`. -/
structure RateLimitStatus where
  count : Nat
  limit : Nat
  resetAt : Nat
deriving Repr, DecidableEq

/-- Modelled from the spec: `getStatus(operationType, identifier?)` — `null`
only when the operation type is wholly unconfigured; a known but never-checked
identifier reports `count: 0` (spec section 4.1). -/
def getStatus (rl : RateLimiter) (op : String) (ident : IdentArg) (now : Nat) :
    Option RateLimitStatus :=
  match lookupKey op rl.limits with
  | some cfg =>
    match lookupKey (op, resolveIdentifier ident) rl.entries with
    | some e => some ⟨e.count, cfg.maxRequests, e.windowStart + cfg.windowMs⟩
    | none => some ⟨0, cfg.maxRequests, now + cfg.windowMs⟩
  | none =>
    match rl.defaultConfig with
    | some cfg =>
      match lookupKey (implicitOperationType, op) rl.entries with
      | some e => some ⟨e.count, cfg.maxRequests, e.windowStart + cfg.windowMs⟩
      | none => some ⟨0, cfg.maxRequests, now + cfg.windowMs⟩
    | none => none

/-- `getMetrics` view: `{ operationType, requestCount, limitExceeded, currentWindow: { count } }`. -/
structure MetricsView where
  operationType : String
  requestCount : Nat
  limitExceeded : Nat
  currentWindowCount : Nat
deriving Repr, DecidableEq

/-- Modelled from the spec: `getMetrics(operationType)`, `null` for an
operation type never configured nor auto-registered (spec section 4.1). -/
def getMetrics (rl : RateLimiter) (op : String) : Option MetricsView :=
  (lookupKey op rl.metrics).map
    (fun m => ⟨op, m.requestCount, m.limitExceeded, m.currentWindowCount⟩)

/-- One call shape: (first argument, identifier argument, time of the call). -/
abbrev Call := String × IdentArg × Nat

/-- Run a sequence of `checkLimit` calls, collecting results and threading state. -/
def runChecks (rl : RateLimiter) : List Call → List CheckResult × RateLimiter
  | [] => ([], rl)
  | c :: rest =>
    let r := checkLimit rl c.1 c.2.1 c.2.2
    let rs := runChecks r.2 rest
    (r.1 :: rs.1, rs.2)

/-- Run a sequence of `checkLimitOrThrow` calls, collecting outcomes. -/
def runOrThrowCalls (rl : RateLimiter) :
    List Call → List (Except RateLimitError Unit) × RateLimiter
  | [] => ([], rl)
  | c :: rest =>
    let r := checkLimitOrThrow rl c.1 c.2.1 c.2.2
    let rs := runOrThrowCalls r.2 rest
    (r.1 :: rs.1, rs.2)

/-- `m` identical checks of `(op, ident)` all made at time `t`. -/
def checkCalls (op : String) (ident : IdentArg) (t : Nat) (m : Nat) : List Call :=
  List.replicate m (op, ident, t)

end RateLimit

namespace Shutdown

/-- Modelled from the spec: a registered cleanup task, abstracted by its name
and its asynchronous behaviour — the time (ms after shutdown start) at which it
settles (`none` if it never settles) and whether it resolves (`true`) or
rejects (`false`) when it settles (`shutdown-handler.ts` is not under `src/`;
spec sections 3, 4.2). -/
structure CleanupTask where
  name : String
  settlesAt : Option Nat
  succeeds : Bool
deriving Repr, DecidableEq

/-- Structured log events of the shutdown routine; `render` gives the exact
message strings appearing in the shipped test file. -/
inductive LogEvent where
  | executing (name : String)
  | completed (name : String)
  | failedFor (name : String)
  | alreadyInProgress
  | timeoutExceeded (ms : Nat)
deriving Repr, DecidableEq

/-- The exact console message for each log event, as asserted by
`shutdown-handler.coverage.spec.ts`. -/
def LogEvent.render : LogEvent → String
  | .executing n => "Executing cleanup: " ++ n
  | .completed n => "Cleanup completed: " ++ n
  | .failedFor n => "Cleanup failed for " ++ n ++ ":"
  | .alreadyInProgress => "Shutdown already in progress..."
  | .timeoutExceeded ms => "Shutdown timeout exceeded (" ++ toString ms ++ "ms), forcing exit"

/-- Whether every cleanup task eventually settles. -/
def allSettled (tasks : List CleanupTask) : Bool :=
  tasks.all (fun t => t.settlesAt.isSome)

/-- The time at which the last task settles (0 for no tasks); meaningful when
`allSettled` holds. -/
def settleTime (tasks : List CleanupTask) : Nat :=
  (tasks.filterMap (fun t => t.settlesAt)).foldr max 0

/-- Modelled from the spec: the all-settled join completes before the timeout
timer fires (spec section 4.2, step 4 versus step 5). -/
def gracefulCompletion (timeoutMs : Nat) (tasks : List CleanupTask) : Bool :=
  allSettled tasks && decide (settleTime tasks < timeoutMs)

/-- Whether a task settles strictly before the given cutoff time. -/
def settledBy (cutoff : Nat) (t : CleanupTask) : Bool :=
  match t.settlesAt with
  | none => false
  | some s => s < cutoff

/-- The settle-event log entry of a task: completion or failure. -/
def settleEvent (t : CleanupTask) : LogEvent :=
  if t.succeeds then .completed t.name else .failedFor t.name

/-- The observable outcome of one shutdown execution. -/
structure ShutdownResult where
  log : List LogEvent
  invoked : List String
  exitCode : Nat
  exitTime : Nat
  timedOut : Bool
  timerCleared : Bool
deriving Repr, DecidableEq

/-- Modelled from the spec, the shutdown routine past the idempotence guard
(spec section 4.2, steps 2–5): start the timeout timer, invoke every cleanup
task concurrently (each invocation logged), catch and log each failure
individually, log each success; if all tasks settle before the timeout fires,
cancel the timer and exit with code 0 when every task resolved, else 1; if the
timeout fires first, log the timeout message and force exit with code 1 at the
timeout boundary, abandoning in-flight tasks. -/
def runShutdown (timeoutMs : Nat) (tasks : List CleanupTask) : ShutdownResult :=
  let execLog := tasks.map (fun t => LogEvent.executing t.name)
  if gracefulCompletion timeoutMs tasks then
    { log := execLog ++ tasks.map settleEvent,
      invoked := tasks.map (fun t => t.name),
      exitCode := if tasks.any (fun t => !t.succeeds) then 1 else 0,
      exitTime := settleTime tasks,
      timedOut := false,
      timerCleared := true }
  else
    { log := execLog ++ (tasks.filter (settledBy timeoutMs)).map settleEvent
        ++ [LogEvent.timeoutExceeded timeoutMs],
      invoked := tasks.map (fun t => t.name),
      exitCode := 1,
      exitTime := timeoutMs,
      timedOut := true,
      timerCleared := false }

/-- The trigger-visible handler state: the single-fire guard flag plus the
cleanup invocations and log lines accumulated so far. -/
structure HandlerState where
  isShuttingDown : Bool
  invoked : List String
  log : List LogEvent
deriving Repr, DecidableEq

/-- The initial (`Idle`) handler state. -/
def initState : HandlerState := ⟨false, [], []⟩

/-- Modelled from the spec: one shutdown trigger (a direct `shutdown()` call or
an installed signal handler firing).  The guard is set synchronously before any
asynchronous work (spec section 5), so on the event-loop model triggers apply
sequentially: the first trigger flips the guard and invokes every registered
cleanup task; every later trigger only logs "already in progress" and resolves
(spec section 4.2, step 1). -/
def triggerShutdown (tasks : List CleanupTask) (s : HandlerState) : HandlerState :=
  if s.isShuttingDown then
    { s with log := s.log ++ [LogEvent.alreadyInProgress] }
  else
    { isShuttingDown := true,
      invoked := s.invoked ++ tasks.map (fun t => t.name),
      log := s.log ++ tasks.map (fun t => LogEvent.executing t.name) }

/-- `n` shutdown triggers delivered in sequence (the serialisation of `n`
concurrent trigger sources on the single-threaded scheduling model). -/
def runTriggers (tasks : List CleanupTask) : Nat → HandlerState
  | 0 => initState
  | n + 1 => triggerShutdown tasks (runTriggers tasks n)

end Shutdown

/-! ## Helper lemmas -/

theorem lookupKey_insertKey_self {α β : Type} [DecidableEq α] (k : α) (v : β)
    (l : List (α × β)) : lookupKey k (insertKey k v l) = some v := by
  induction l with
  | nil => simp [insertKey, lookupKey]
  | cons hd tl ih =>
    obtain ⟨k', v'⟩ := hd
    by_cases h : k = k'
    · simp [insertKey, lookupKey, h]
    · simp [insertKey, lookupKey, h, ih]

theorem lookupKey_insertKey_ne {α β : Type} [DecidableEq α] {k k' : α} (v : β)
    (h : k' ≠ k) (l : List (α × β)) :
    lookupKey k' (insertKey k v l) = lookupKey k' l := by
  induction l with
  | nil => simp [insertKey, lookupKey, h]
  | cons hd tl ih =>
    obtain ⟨a, b⟩ := hd
    by_cases hk : k = a
    · subst hk
      simp [insertKey, lookupKey, h]
    · by_cases hk' : k' = a
      · simp [insertKey, lookupKey, hk, hk']
      · simp [insertKey, lookupKey, hk, hk', ih]

namespace RateLimit

theorem one_le_retryAfterSeconds (a b c : Nat) : 1 ≤ retryAfterSeconds a b c :=
  le_max_left 1 _

theorem windowCheck_fresh (cfg : RateLimitConfig) (now : Nat) :
    windowCheck cfg none now = (⟨true, none⟩, ⟨1, now⟩) := rfl

theorem windowCheck_expired {cfg : RateLimitConfig} {e : WindowEntry} {now : Nat}
    (h : cfg.windowMs ≤ now - e.windowStart) :
    windowCheck cfg (some e) now = (⟨true, none⟩, ⟨1, now⟩) := by
  simp [windowCheck, h]

theorem windowCheck_live {cfg : RateLimitConfig} {e : WindowEntry} {now : Nat}
    (h : now - e.windowStart < cfg.windowMs) :
    windowCheck cfg (some e) now =
      (if e.count + 1 ≤ cfg.maxRequests then (⟨true, none⟩, ⟨e.count + 1, e.windowStart⟩)
       else (⟨false, some (retryAfterSeconds e.windowStart cfg.windowMs now)⟩,
         ⟨e.count + 1, e.windowStart⟩)) := by
  simp [windowCheck, Nat.not_le.mpr h]

theorem windowCheck_live_snd {cfg : RateLimitConfig} {e : WindowEntry} {now : Nat}
    (h : now - e.windowStart < cfg.windowMs) :
    (windowCheck cfg (some e) now).2 = ⟨e.count + 1, e.windowStart⟩ := by
  rw [windowCheck_live h]
  split <;> rfl

theorem windowCheck_rejected {cfg : RateLimitConfig} {oe : Option WindowEntry} {now : Nat}
    (h : (windowCheck cfg oe now).1.allowed = false) :
    ∃ ra, (windowCheck cfg oe now).1.retryAfter = some ra ∧ 1 ≤ ra := by
  match oe with
  | none => simp [windowCheck] at h
  | some e =>
    by_cases hexp : cfg.windowMs ≤ now - e.windowStart
    · rw [windowCheck_expired hexp] at h
      simp at h
    · rw [windowCheck_live (Nat.not_le.mp hexp)] at h ⊢
      by_cases hc : e.count + 1 ≤ cfg.maxRequests
      · simp [hc] at h
      · simp [hc]
        exact one_le_retryAfterSeconds _ _ _

theorem trackedCheck_fst (rl : RateLimiter) (cfg : RateLimitConfig) (mop : String)
    (key : String × String) (now : Nat) :
    (trackedCheck rl cfg mop key now).1 = (windowCheck cfg (lookupKey key rl.entries) now).1 :=
  rfl

theorem trackedCheck_limits (rl : RateLimiter) (cfg : RateLimitConfig) (mop : String)
    (key : String × String) (now : Nat) :
    ((trackedCheck rl cfg mop key now).2).limits = rl.limits := rfl

theorem trackedCheck_defaultConfig (rl : RateLimiter) (cfg : RateLimitConfig) (mop : String)
    (key : String × String) (now : Nat) :
    ((trackedCheck rl cfg mop key now).2).defaultConfig = rl.defaultConfig := rfl

theorem trackedCheck_entries_self (rl : RateLimiter) (cfg : RateLimitConfig) (mop : String)
    (key : String × String) (now : Nat) :
    lookupKey key ((trackedCheck rl cfg mop key now).2).entries
      = some (windowCheck cfg (lookupKey key rl.entries) now).2 :=
  lookupKey_insertKey_self key _ rl.entries

theorem trackedCheck_entries_ne (rl : RateLimiter) (cfg : RateLimitConfig) (mop : String)
    {key key' : String × String} (h : key' ≠ key) (now : Nat) :
    lookupKey key' ((trackedCheck rl cfg mop key now).2).entries
      = lookupKey key' rl.entries :=
  lookupKey_insertKey_ne _ h rl.entries

theorem trackedCheck_metrics_self (rl : RateLimiter) (cfg : RateLimitConfig) (mop : String)
    (key : String × String) (now : Nat) :
    lookupKey mop ((trackedCheck rl cfg mop key now).2).metrics
      = some (bumpMetrics (lookupKey mop rl.metrics)
          (windowCheck cfg (lookupKey key rl.entries) now).1.allowed
          (windowCheck cfg (lookupKey key rl.entries) now).2.count) :=
  lookupKey_insertKey_self mop _ rl.metrics

theorem checkLimit_explicit {rl : RateLimiter} {op : String} {cfg : RateLimitConfig}
    (h : lookupKey op rl.limits = some cfg) (i : IdentArg) (t : Nat) :
    checkLimit rl op i t = trackedCheck rl cfg op (op, resolveIdentifier i) t := by
  simp [checkLimit, checkLimitResolved, h]

theorem checkLimit_defaultCfg {rl : RateLimiter} {op : String} {cfg : RateLimitConfig}
    (h : lookupKey op rl.limits = none) (hd : rl.defaultConfig = some cfg)
    (i : IdentArg) (t : Nat) :
    checkLimit rl op i t
      = trackedCheck rl cfg implicitOperationType (implicitOperationType, op) t := by
  simp [checkLimit, checkLimitResolved, h, hd]

theorem checkLimit_untracked {rl : RateLimiter} {op : String}
    (h : lookupKey op rl.limits = none) (hd : rl.defaultConfig = none)
    (i : IdentArg) (t : Nat) :
    checkLimit rl op i t = (⟨true, none⟩, rl) := by
  simp [checkLimit, checkLimitResolved, h, hd]

theorem checkLimit_rejected_retryAfter (rl : RateLimiter) (f : String) (i : IdentArg)
    (t : Nat) (h : (checkLimit rl f i t).1.allowed = false) :
    ∃ ra, (checkLimit rl f i t).1.retryAfter = some ra ∧ 1 ≤ ra := by
  rcases hlim : lookupKey f rl.limits with _ | cfg
  · rcases hd : rl.defaultConfig with _ | cfg
    · rw [checkLimit_untracked hlim hd] at h
      simp at h
    · rw [checkLimit_defaultCfg hlim hd, trackedCheck_fst] at h ⊢
      exact windowCheck_rejected h
  · rw [checkLimit_explicit hlim, trackedCheck_fst] at h ⊢
    exact windowCheck_rejected h

end RateLimit

namespace RateLimit

/-- Claim C5: for every check on a key, if no window entry exists or
`now - windowStart ≥ windowMs`, a fresh window is started with `count = 1` and
`windowStart = now` and the check is allowed; a previously exhausted identifier
thus becomes allowed again after the window elapses, with its count restarting
at 1 rather than N+1. -/
theorem fresh_window_reset (rl : RateLimiter) (op : String) (i : IdentArg) (now : Nat)
    (cfg : RateLimitConfig) (h : lookupKey op rl.limits = some cfg)
    (hfresh : lookupKey (op, resolveIdentifier i) rl.entries = none ∨
      ∃ e, lookupKey (op, resolveIdentifier i) rl.entries = some e ∧
        cfg.windowMs ≤ now - e.windowStart) :
    (checkLimit rl op i now).1 = ⟨true, none⟩ ∧
    lookupKey (op, resolveIdentifier i) ((checkLimit rl op i now).2).entries
      = some ⟨1, now⟩ := by
  rw [checkLimit_explicit h]
  have hw : windowCheck cfg (lookupKey (op, resolveIdentifier i) rl.entries) now
      = (⟨true, none⟩, ⟨1, now⟩) := by
    rcases hfresh with hnone | ⟨e, he, helapsed⟩
    · rw [hnone, windowCheck_fresh]
    · rw [he, windowCheck_expired helapsed]
  refine ⟨?_, ?_⟩
  · rw [trackedCheck_fst, hw]
  · rw [trackedCheck_entries_self, hw]

theorem fresh_window_reset_witness :
    (checkLimit ⟨none, [("op", ⟨2, 1000⟩)], [(("op", "u"), ⟨5, 0⟩)], [("op", ⟨5, 3, 5⟩)]⟩
        "op" (.str "u") 1000).1 = ⟨true, none⟩ ∧
    lookupKey ("op", resolveIdentifier (.str "u"))
        ((checkLimit ⟨none, [("op", ⟨2, 1000⟩)], [(("op", "u"), ⟨5, 0⟩)], [("op", ⟨5, 3, 5⟩)]⟩
          "op" (.str "u") 1000).2).entries = some ⟨1, 1000⟩ :=
  fresh_window_reset
    ⟨none, [("op", ⟨2, 1000⟩)], [(("op", "u"), ⟨5, 0⟩)], [("op", ⟨5, 3, 5⟩)]⟩
    "op" (.str "u") 1000 ⟨2, 1000⟩ (by decide)
    (Or.inr ⟨⟨5, 0⟩, by decide, by decide⟩)

end RateLimit

namespace Shutdown

/-- Claim C10: the shutdown routine cancels its timeout timer whenever all
cleanup tasks have settled before the timeout fires — including when one or
more cleanup tasks reject, not only on fully successful completion — so a
failed cleanup never leaves a dangling timer with process-exit side effects. -/
theorem timer_cleared_on_settled (timeoutMs : Nat) (tasks : List CleanupTask)
    (hs : allSettled tasks = true) (ht : settleTime tasks < timeoutMs) :
    (runShutdown timeoutMs tasks).timerCleared = true ∧
    (runShutdown timeoutMs tasks).timedOut = false := by
  have hg : gracefulCompletion timeoutMs tasks = true := by
    simp [gracefulCompletion, hs, ht]
  simp [runShutdown, hg]

theorem timer_cleared_on_settled_witness :
    (runShutdown 5000 [⟨"failing-cleanup", some 10, false⟩, ⟨"ok-cleanup", some 20, true⟩]).timerCleared
      = true ∧
    (runShutdown 5000 [⟨"failing-cleanup", some 10, false⟩, ⟨"ok-cleanup", some 20, true⟩]).timedOut
      = false :=
  timer_cleared_on_settled 5000
    [⟨"failing-cleanup", some 10, false⟩, ⟨"ok-cleanup", some 20, true⟩]
    (by decide) (by decide)

/-- Claim C4: if the registered cleanup tasks have not all settled when the
configured (caller-overridable) timeout elapses after `shutdown()` starts, the
handler logs "Shutdown timeout exceeded (`<ms>`ms), forcing exit" and
terminates the process with code 1 at the timeout boundary; it does not force
exit before the configured timeout elapses (in particular, when all tasks
settle in time no timeout message is ever logged). -/
theorem timeout_forcing (timeoutMs : Nat) (tasks : List CleanupTask) :
    (gracefulCompletion timeoutMs tasks = false →
      LogEvent.timeoutExceeded timeoutMs ∈ (runShutdown timeoutMs tasks).log ∧
      (runShutdown timeoutMs tasks).exitCode = 1 ∧
      (runShutdown timeoutMs tasks).exitTime = timeoutMs) ∧
    (gracefulCompletion timeoutMs tasks = true →
      LogEvent.timeoutExceeded timeoutMs ∉ (runShutdown timeoutMs tasks).log ∧
      (runShutdown timeoutMs tasks).exitTime < timeoutMs) ∧
    (LogEvent.timeoutExceeded timeoutMs).render
      = "Shutdown timeout exceeded (" ++ toString timeoutMs ++ "ms), forcing exit" := by
  refine ⟨?_, ?_, rfl⟩
  · intro hg
    simp [runShutdown, hg]
  · intro hg
    have ht : settleTime tasks < timeoutMs := by
      simp [gracefulCompletion] at hg
      exact hg.2
    constructor
    · simp only [runShutdown, hg, if_pos]
      intro hmem
      rcases List.mem_append.mp hmem with hx | hx
      · rcases List.mem_map.mp hx with ⟨t, _, ht'⟩
        exact LogEvent.noConfusion ht'
      · rcases List.mem_map.mp hx with ⟨t, _, ht'⟩
        unfold settleEvent at ht'
        by_cases hs : t.succeeds <;> simp [hs] at ht'
    · simpa [runShutdown, hg] using ht

theorem timeout_forcing_witness :
    LogEvent.timeoutExceeded 5000 ∈ (runShutdown 5000 [⟨"slow-cleanup", none, true⟩]).log ∧
    (runShutdown 5000 [⟨"slow-cleanup", none, true⟩]).exitCode = 1 ∧
    (runShutdown 5000 [⟨"slow-cleanup", none, true⟩]).exitTime = 5000 :=
  (timeout_forcing 5000 [⟨"slow-cleanup", none, true⟩]).1 (by decide)

/-- Claim C3: when `shutdown()` runs and one of several registered cleanup
tasks rejects, the remaining tasks still execute (each invocation logged) and
successful ones log "Cleanup completed: `<name>`", the failure is logged as
"Cleanup failed for `<name>`:", and the process is terminated with exit code 1;
the process exits with code 0 if and only if every cleanup task resolved
without error and no timeout occurred. -/
theorem partial_failure_resilience (timeoutMs : Nat) (tasks : List CleanupTask) :
    (gracefulCompletion timeoutMs tasks = true →
      (∀ t ∈ tasks,
        LogEvent.executing t.name ∈ (runShutdown timeoutMs tasks).log ∧
        (t.succeeds = true → LogEvent.completed t.name ∈ (runShutdown timeoutMs tasks).log) ∧
        (t.succeeds = false → LogEvent.failedFor t.name ∈ (runShutdown timeoutMs tasks).log)) ∧
      ((∃ t ∈ tasks, t.succeeds = false) → (runShutdown timeoutMs tasks).exitCode = 1)) ∧
    ((runShutdown timeoutMs tasks).exitCode = 0 ↔
      gracefulCompletion timeoutMs tasks = true ∧ ∀ t ∈ tasks, t.succeeds = true) := by
  constructor
  · intro hg
    constructor
    · intro t hmem
      refine ⟨?_, ?_, ?_⟩
      · simp only [runShutdown, hg, if_pos]
        exact List.mem_append.mpr (Or.inl (List.mem_map.mpr ⟨t, hmem, rfl⟩))
      · intro hs
        simp only [runShutdown, hg, if_pos]
        refine List.mem_append.mpr (Or.inr (List.mem_map.mpr ⟨t, hmem, ?_⟩))
        simp [settleEvent, hs]
      · intro hs
        simp only [runShutdown, hg, if_pos]
        refine List.mem_append.mpr (Or.inr (List.mem_map.mpr ⟨t, hmem, ?_⟩))
        simp [settleEvent, hs]
    · rintro ⟨t, hmem, hfail⟩
      have hany : tasks.any (fun t => !t.succeeds) = true :=
        List.any_eq_true.mpr ⟨t, hmem, by simp [hfail]⟩
      simp [runShutdown, hg, hany]
  · by_cases hg : gracefulCompletion timeoutMs tasks = true
    · by_cases hany : tasks.any (fun t => !t.succeeds) = true
      · rcases List.any_eq_true.mp hany with ⟨t, hmem, hfail⟩
        simp only [runShutdown, hg, if_pos, hany, if_true]
        constructor
        · intro h; exact absurd h one_ne_zero
        · rintro ⟨-, hall⟩
          have := hall t hmem
          simp [this] at hfail
      · simp only [runShutdown, hg, if_pos, hany, if_false]
        constructor
        · intro _
          refine ⟨by simp [hg], fun t hmem => ?_⟩
          by_contra hne
          exact hany (List.any_eq_true.mpr ⟨t, hmem, by simp [Bool.not_eq_true] at hne ⊢; exact hne⟩)
        · intro _; rfl
    · simp only [Bool.not_eq_true] at hg
      simp [runShutdown, hg]

theorem partial_failure_resilience_witness :
    (LogEvent.executing "cleanup-2"
        ∈ (runShutdown 5000 [⟨"cleanup-1", some 10, false⟩, ⟨"cleanup-2", some 20, true⟩,
            ⟨"cleanup-3", some 30, true⟩]).log ∧
      (True → LogEvent.completed "cleanup-2"
        ∈ (runShutdown 5000 [⟨"cleanup-1", some 10, false⟩, ⟨"cleanup-2", some 20, true⟩,
            ⟨"cleanup-3", some 30, true⟩]).log)) ∧
    (runShutdown 5000 [⟨"cleanup-1", some 10, false⟩, ⟨"cleanup-2", some 20, true⟩,
        ⟨"cleanup-3", some 30, true⟩]).exitCode = 1 := by
  have h := partial_failure_resilience 5000
    [⟨"cleanup-1", some 10, false⟩, ⟨"cleanup-2", some 20, true⟩, ⟨"cleanup-3", some 30, true⟩]
  have hg : gracefulCompletion 5000
      [⟨"cleanup-1", some 10, false⟩, ⟨"cleanup-2", some 20, true⟩,
        ⟨"cleanup-3", some 30, true⟩] = true := by decide
  have h1 := (h.1 hg).1 ⟨"cleanup-2", some 20, true⟩ (by decide)
  exact ⟨⟨h1.1, fun _ => h1.2.1 rfl⟩,
    (h.1 hg).2 ⟨⟨"cleanup-1", some 10, false⟩, by decide, rfl⟩⟩

theorem runTriggers_succ (tasks : List CleanupTask) (n : Nat) :
    runTriggers tasks (n + 1)
      = ⟨true, tasks.map (fun t => t.name),
          tasks.map (fun t => LogEvent.executing t.name)
            ++ List.replicate n LogEvent.alreadyInProgress⟩ := by
  induction n with
  | zero => simp [runTriggers, triggerShutdown, initState]
  | succ m ih =>
    rw [runTriggers, ih]
    simp [triggerShutdown, List.replicate_succ']

/-- Claim C1: for every handler with any set of registered cleanup callbacks
(unique names, per the registry invariant), across arbitrarily many concurrent
shutdown triggers — multiple direct `shutdown()` calls or multiple installed
signal handlers firing, which serialise on the single-threaded scheduling
model — every registered cleanup callback is invoked exactly once, and each
trigger after the first logs "Shutdown already in progress..." (one line per
extra trigger) without re-running cleanup. -/
theorem shutdown_single_fire (tasks : List CleanupTask) (n : Nat) (hn : 1 ≤ n)
    (name : String) (hmem : name ∈ tasks.map (fun t => t.name))
    (hnodup : (tasks.map (fun t => t.name)).Nodup) :
    (runTriggers tasks n).invoked = tasks.map (fun t => t.name) ∧
    ((runTriggers tasks n).invoked).count name = 1 ∧
    ((runTriggers tasks n).log).count LogEvent.alreadyInProgress = n - 1 ∧
    LogEvent.alreadyInProgress.render = "Shutdown already in progress..." := by
  obtain ⟨m, rfl⟩ := Nat.exists_eq_add_of_le hn
  rw [Nat.add_comm 1 m, runTriggers_succ]
  refine ⟨rfl, ?_, ?_, rfl⟩
  · exact List.count_eq_one_of_mem hnodup hmem
  · rw [List.count_append]
    have h0 : (tasks.map (fun t => LogEvent.executing t.name)).count
        LogEvent.alreadyInProgress = 0 := by
      rw [List.count_eq_zero]
      intro hx
      rcases List.mem_map.mp hx with ⟨t, -, ht⟩
      exact LogEvent.noConfusion ht
    rw [h0, List.count_replicate_self]
    omega

theorem shutdown_single_fire_witness :
    (runTriggers [⟨"cleanup-1", some 10, true⟩, ⟨"cleanup-2", some 20, true⟩] 3).invoked
      = ["cleanup-1", "cleanup-2"] ∧
    ((runTriggers [⟨"cleanup-1", some 10, true⟩, ⟨"cleanup-2", some 20, true⟩] 3).invoked).count
      "cleanup-1" = 1 ∧
    ((runTriggers [⟨"cleanup-1", some 10, true⟩, ⟨"cleanup-2", some 20, true⟩] 3).log).count
      LogEvent.alreadyInProgress = 3 - 1 ∧
    LogEvent.alreadyInProgress.render = "Shutdown already in progress..." :=
  shutdown_single_fire [⟨"cleanup-1", some 10, true⟩, ⟨"cleanup-2", some 20, true⟩] 3
    (by decide) "cleanup-1" (by decide) (by decide)

end Shutdown

namespace RateLimit

/-- Claim C6: a window entry's count equals the number of checks made for that
key since `windowStart`, counting rejected checks as well as accepted ones (the
rejecting call itself is counted): every in-window check increments the count
by exactly one regardless of outcome, and after 2 allowed and 1 rejected check
under `maxRequests = 2`, `getStatus` reports `count = 3` (exceeding the limit)
and `getMetrics` reports a current-window count of 3. -/
theorem count_includes_rejected :
    (∀ (rl : RateLimiter) (op : String) (i : IdentArg) (t : Nat)
        (cfg : RateLimitConfig) (e : WindowEntry),
      lookupKey op rl.limits = some cfg →
      lookupKey (op, resolveIdentifier i) rl.entries = some e →
      t - e.windowStart < cfg.windowMs →
      lookupKey (op, resolveIdentifier i) ((checkLimit rl op i t).2).entries
        = some ⟨e.count + 1, e.windowStart⟩) ∧
    getStatus (runChecks (setLimit (RateLimiter.empty none) "op" ⟨2, 1000⟩)
        (checkCalls "op" (.str "u") 0 3)).2 "op" (.str "u") 0
      = some ⟨3, 2, 1000⟩ ∧
    getMetrics (runChecks (setLimit (RateLimiter.empty none) "op" ⟨2, 1000⟩)
        (checkCalls "op" (.str "u") 0 3)).2 "op"
      = some ⟨"op", 3, 1, 3⟩ := by
  refine ⟨?_, by decide, by decide⟩
  intro rl op i t cfg e hlim hent hlive
  rw [checkLimit_explicit hlim, trackedCheck_entries_self, hent, windowCheck_live_snd hlive]

theorem count_includes_rejected_witness :
    lookupKey ("op", resolveIdentifier (.str "u"))
        ((checkLimit ⟨none, [("op", ⟨2, 1000⟩)], [(("op", "u"), ⟨2, 0⟩)], [("op", ⟨2, 0, 2⟩)]⟩
          "op" (.str "u") 0).2).entries = some ⟨2 + 1, 0⟩ :=
  count_includes_rejected.1
    ⟨none, [("op", ⟨2, 1000⟩)], [(("op", "u"), ⟨2, 0⟩)], [("op", ⟨2, 0, 2⟩)]⟩
    "op" (.str "u") 0 ⟨2, 1000⟩ ⟨2, 0⟩ (by decide) (by decide) (by decide)

/-- Claim C8: `checkLimit` resolves its configuration in this order: (a) an
explicit per-operation-type config, if present, is used (the outcome is the
window check against the (operation-type, resolved-identifier) entry); (b)
otherwise, if a default config was supplied at construction, the first argument
is treated as an identifier under the implicit operation type using the default
config, with per-identifier isolation; (c) otherwise the check is allowed
unconditionally with no window tracking and no retryAfter, the state is
untouched, and `checkLimitOrThrow` never throws no matter how many calls are
made. -/
theorem resolution_order :
    (∀ (rl : RateLimiter) (f : String) (i : IdentArg) (t : Nat) (cfg : RateLimitConfig),
      lookupKey f rl.limits = some cfg →
      (checkLimit rl f i t).1
        = (windowCheck cfg (lookupKey (f, resolveIdentifier i) rl.entries) t).1) ∧
    (∀ (rl : RateLimiter) (f : String) (i : IdentArg) (t : Nat) (cfg : RateLimitConfig),
      lookupKey f rl.limits = none → rl.defaultConfig = some cfg →
      (checkLimit rl f i t).1
        = (windowCheck cfg (lookupKey (implicitOperationType, f) rl.entries) t).1 ∧
      ∀ g : String, g ≠ f →
        lookupKey (implicitOperationType, g) ((checkLimit rl f i t).2).entries
          = lookupKey (implicitOperationType, g) rl.entries) ∧
    (∀ (rl : RateLimiter) (f : String) (i : IdentArg) (t : Nat),
      lookupKey f rl.limits = none → rl.defaultConfig = none →
      checkLimit rl f i t = (⟨true, none⟩, rl)) ∧
    (∀ (rl : RateLimiter) (calls : List Call),
      rl.defaultConfig = none → (∀ c ∈ calls, lookupKey c.1 rl.limits = none) →
      (∀ r ∈ (runOrThrowCalls rl calls).1, r = Except.ok ()) ∧
      (runOrThrowCalls rl calls).2 = rl) := by
  refine ⟨?_, ?_, ?_, ?_⟩
  · intro rl f i t cfg h
    rw [checkLimit_explicit h, trackedCheck_fst]
  · intro rl f i t cfg h hd
    rw [checkLimit_defaultCfg h hd]
    refine ⟨trackedCheck_fst .., ?_⟩
    intro g hg
    exact trackedCheck_entries_ne rl cfg implicitOperationType
      (fun hpair => hg (congrArg Prod.snd hpair)) t
  · intro rl f i t h hd
    exact checkLimit_untracked h hd i t
  · intro rl calls hd hcalls
    induction calls with
    | nil => exact ⟨fun r hr => absurd hr (List.not_mem_nil r), rfl⟩
    | cons c rest ih =>
      have hc : checkLimit rl c.1 c.2.1 c.2.2 = (⟨true, none⟩, rl) :=
        checkLimit_untracked (hcalls c (List.mem_cons_self c rest)) hd c.2.1 c.2.2
      have hthrow : checkLimitOrThrow rl c.1 c.2.1 c.2.2 = (Except.ok (), rl) := by
        simp [checkLimitOrThrow, hc]
      have hrest := ih (fun d hdm => hcalls d (List.mem_cons_of_mem c hdm))
      constructor
      · intro r hr
        simp only [runOrThrowCalls, hthrow] at hr
        rcases List.mem_cons.mp hr with h1 | h1
        · exact h1
        · exact hrest.1 r h1
      · simp only [runOrThrowCalls, hthrow]
        exact hrest.2

theorem resolution_order_witness :
    (checkLimit ⟨none, [("op", ⟨2, 1000⟩)], [], []⟩ "op" (.str "u") 0).1
      = (windowCheck ⟨2, 1000⟩
          (lookupKey ("op", resolveIdentifier (.str "u"))
            (⟨none, [("op", ⟨2, 1000⟩)], [], []⟩ : RateLimiter).entries) 0).1 ∧
    checkLimit (RateLimiter.empty none) "free" (.str "u") 0
      = (⟨true, none⟩, RateLimiter.empty none) :=
  ⟨resolution_order.1 ⟨none, [("op", ⟨2, 1000⟩)], [], []⟩ "op" (.str "u") 0 ⟨2, 1000⟩
      (by decide),
   resolution_order.2.2.1 (RateLimiter.empty none) "free" (.str "u") 0 (by decide) rfl⟩

/-- Claim C9: for every operation type with an explicit config, calling
`checkLimit(op)`, `checkLimit(op, undefined)`, `checkLimit(op, null)`, and
`checkLimit(op, "")` all resolve to and count against the same identifier, the
literal string `"default"` — the four call shapes are fully interchangeable —
and any mix of such calls draws from one shared budget, observable via
`getStatus(op, "default")`. -/
theorem default_identifier_equivalence :
    (∀ i : IdentArg,
      i = .omitted ∨ i = .undef ∨ i = .nullv ∨ i = .str "" →
      resolveIdentifier i = "default") ∧
    (∀ (rl : RateLimiter) (f : String) (t : Nat) (i j : IdentArg),
      i = .omitted ∨ i = .undef ∨ i = .nullv ∨ i = .str "" →
      j = .omitted ∨ j = .undef ∨ j = .nullv ∨ j = .str "" →
      checkLimit rl f i t = checkLimit rl f j t) ∧
    ((runChecks (setLimit (RateLimiter.empty none) "login" ⟨2, 1000⟩)
        [("login", .omitted, 0), ("login", .undef, 0), ("login", .nullv, 0),
          ("login", .str "", 0)]).1.map (fun r => r.allowed)
      = [true, true, false, false]) ∧
    getStatus (runChecks (setLimit (RateLimiter.empty none) "login" ⟨2, 1000⟩)
        [("login", .omitted, 0), ("login", .undef, 0), ("login", .nullv, 0),
          ("login", .str "", 0)]).2 "login" (.str "default") 0
      = some ⟨4, 2, 1000⟩ := by
  have hres : ∀ i : IdentArg,
      i = .omitted ∨ i = .undef ∨ i = .nullv ∨ i = .str "" →
      resolveIdentifier i = "default" := by
    rintro i (rfl | rfl | rfl | rfl) <;> rfl
  refine ⟨hres, ?_, by decide, by decide⟩
  intro rl f t i j hi hj
  show checkLimitResolved rl f (resolveIdentifier i) t
      = checkLimitResolved rl f (resolveIdentifier j) t
  rw [hres i hi, hres j hj]

theorem default_identifier_equivalence_witness :
    resolveIdentifier .nullv = "default" ∧
    checkLimit (RateLimiter.empty none) "login" .nullv 0
      = checkLimit (RateLimiter.empty none) "login" (.str "") 0 :=
  ⟨default_identifier_equivalence.1 .nullv (Or.inr (Or.inr (Or.inl rfl))),
   default_identifier_equivalence.2.1 (RateLimiter.empty none) "login" 0 .nullv (.str "")
     (Or.inr (Or.inr (Or.inl rfl))) (Or.inr (Or.inr (Or.inr rfl)))⟩

theorem length_filter_partition {α : Type} (p : α → Bool) (l : List α) :
    (l.filter p).length + (l.filter (fun x => !p x)).length = l.length := by
  induction l with
  | nil => rfl
  | cons a t ih =>
    by_cases h : p a <;> simp [List.filter_cons, h] <;> omega

theorem runChecks_rejected (calls : List Call) :
    ∀ (rl : RateLimiter) (r : CheckResult), r ∈ (runChecks rl calls).1 →
      r.allowed = false → ∃ ra, r.retryAfter = some ra ∧ 1 ≤ ra := by
  induction calls with
  | nil =>
    intro rl r hr
    simp [runChecks] at hr
  | cons c rest ih =>
    intro rl r hr hfalse
    simp only [runChecks] at hr
    rcases List.mem_cons.mp hr with h1 | h1
    · subst h1
      exact checkLimit_rejected_retryAfter rl c.1 c.2.1 c.2.2 hfalse
    · exact ih _ r h1 hfalse

theorem checkLimit_step (rl : RateLimiter) (op : String) (i : IdentArg) (now : Nat)
    (N W k : Nat) (hW : 1 ≤ W)
    (hlim : lookupKey op rl.limits = some ⟨N, W⟩)
    (hent : lookupKey (op, resolveIdentifier i) rl.entries = some ⟨k, now⟩) :
    (checkLimit rl op i now).1
      = (if k + 1 ≤ N then (⟨true, none⟩ : CheckResult)
         else ⟨false, some (retryAfterSeconds now W now)⟩) ∧
    lookupKey op ((checkLimit rl op i now).2).limits = some ⟨N, W⟩ ∧
    lookupKey (op, resolveIdentifier i) ((checkLimit rl op i now).2).entries
      = some ⟨k + 1, now⟩ := by
  have hlive : now - (⟨k, now⟩ : WindowEntry).windowStart
      < (⟨N, W⟩ : RateLimitConfig).windowMs := by
    show now - now < W
    omega
  rw [checkLimit_explicit hlim]
  refine ⟨?_, ?_, ?_⟩
  · rw [trackedCheck_fst, hent, windowCheck_live hlive, apply_ite Prod.fst]
  · rw [trackedCheck_limits, hlim]
  · rw [trackedCheck_entries_self, hent, windowCheck_live_snd hlive]

theorem runChecks_replicate (op : String) (i : IdentArg) (now N W : Nat) (hW : 1 ≤ W)
    (j : Nat) :
    ∀ (k : Nat) (rl : RateLimiter),
      lookupKey op rl.limits = some ⟨N, W⟩ →
      lookupKey (op, resolveIdentifier i) rl.entries = some ⟨k, now⟩ →
      (runChecks rl (checkCalls op i now j)).1
        = (List.range j).map (fun a =>
            if k + a + 1 ≤ N then (⟨true, none⟩ : CheckResult)
            else ⟨false, some (retryAfterSeconds now W now)⟩) ∧
      lookupKey op ((runChecks rl (checkCalls op i now j)).2).limits = some ⟨N, W⟩ ∧
      lookupKey (op, resolveIdentifier i) ((runChecks rl (checkCalls op i now j)).2).entries
        = some ⟨k + j, now⟩ := by
  induction j with
  | zero =>
    intro k rl hlim hent
    exact ⟨rfl, hlim, hent⟩
  | succ j ih =>
    intro k rl hlim hent
    have hstep := checkLimit_step rl op i now N W k hW hlim hent
    have hrest := ih (k + 1) ((checkLimit rl op i now).2) hstep.2.1 hstep.2.2
    have hcons : checkCalls op i now (j + 1) = (op, i, now) :: checkCalls op i now j := rfl
    rw [hcons]
    simp only [runChecks]
    have harith : k + 1 + j = k + (j + 1) := by omega
    refine ⟨?_, hrest.2.1, by rw [hrest.2.2, harith]⟩
    rw [hstep.1, hrest.1, List.range_succ_eq_map, List.map_cons, List.map_map]
    have hfun : ((fun a =>
          if k + a + 1 ≤ N then (⟨true, none⟩ : CheckResult)
          else ⟨false, some (retryAfterSeconds now W now)⟩) ∘ Nat.succ)
        = fun a =>
          if k + 1 + a + 1 ≤ N then (⟨true, none⟩ : CheckResult)
          else ⟨false, some (retryAfterSeconds now W now)⟩ := by
      funext a
      simp only [Function.comp_apply]
      exact if_congr (by omega) rfl rfl
    rw [hfun]

theorem range_map_first_allowed (N : Nat) (hN : 1 ≤ N) :
    true :: (List.range N).map (fun a => if 1 + a + 1 ≤ N then true else false)
      = List.replicate N true ++ [false] := by
  obtain ⟨M, rfl⟩ : ∃ M, N = M + 1 := ⟨N - 1, by omega⟩
  have hmid : (List.range M).map (fun a => if 1 + a + 1 ≤ M + 1 then true else false)
      = List.replicate M true := by
    have hall : ∀ b ∈ (List.range M).map (fun a => if 1 + a + 1 ≤ M + 1 then true else false),
        b = true := by
      intro b hb
      rcases List.mem_map.mp hb with ⟨a, ha, hab⟩
      have := List.mem_range.mp ha
      rw [if_pos (by omega)] at hab
      exact hab.symm
    have := List.eq_replicate_of_mem hall
    rwa [List.length_map, List.length_range] at this
  rw [List.range_succ, List.map_append, List.map_singleton, hmid, if_neg (by omega),
    ← List.cons_append, ← List.replicate_succ]

/-- Claim C2: for every operation type configured with `maxRequests = N` and
`windowMs = W`, and every fixed identifier, among checks made within one window
exactly the first `N` return `allowed = true` and the `(N+1)`th returns
`allowed = false` with `retryAfter ≥ 1`; `checkLimitOrThrow`, under the same
resolution and counting semantics, throws a `RateLimitError` carrying the
operation type and a `retryAfter` integer `≥ 1` exactly in the rejected cases
and returns nothing (with identical state effects) otherwise; and distinct
identifiers under the same operation type each get their own independent
budget: a check on one identifier neither changes the other's window entry nor
the outcome of the other's next check. -/
theorem window_correctness_and_throwing (N W : Nat) (hN : 1 ≤ N) (hW : 1 ≤ W)
    (op : String) (i : IdentArg) (now : Nat) :
    ((runChecks (setLimit (RateLimiter.empty none) op ⟨N, W⟩)
        (checkCalls op i now (N + 1))).1.map (fun r => r.allowed)
      = List.replicate N true ++ [false]) ∧
    (∀ r ∈ (runChecks (setLimit (RateLimiter.empty none) op ⟨N, W⟩)
        (checkCalls op i now (N + 1))).1,
      r.allowed = false → ∃ ra, r.retryAfter = some ra ∧ 1 ≤ ra) ∧
    (∀ (rl : RateLimiter) (f : String) (j : IdentArg) (t : Nat),
      ((checkLimit rl f j t).1.allowed = true →
        (checkLimitOrThrow rl f j t).1 = Except.ok ()) ∧
      ((checkLimit rl f j t).1.allowed = false →
        ∃ ra, (checkLimitOrThrow rl f j t).1 = Except.error ⟨f, ra⟩ ∧ 1 ≤ ra) ∧
      (checkLimitOrThrow rl f j t).2 = (checkLimit rl f j t).2) ∧
    (∀ (rl : RateLimiter) (f : String) (i1 i2 : IdentArg) (t u : Nat)
        (cfg : RateLimitConfig),
      lookupKey f rl.limits = some cfg →
      resolveIdentifier i1 ≠ resolveIdentifier i2 →
      lookupKey (f, resolveIdentifier i2) ((checkLimit rl f i1 t).2).entries
        = lookupKey (f, resolveIdentifier i2) rl.entries ∧
      (checkLimit ((checkLimit rl f i1 t).2) f i2 u).1 = (checkLimit rl f i2 u).1) := by
  refine ⟨?_, ?_, ?_, ?_⟩
  · have hlim0 : lookupKey op (setLimit (RateLimiter.empty none) op ⟨N, W⟩).limits
        = some ⟨N, W⟩ := by
      simp [setLimit, RateLimiter.empty, insertKey, lookupKey]
    have hent0 : lookupKey (op, resolveIdentifier i)
        (setLimit (RateLimiter.empty none) op ⟨N, W⟩).entries = none := rfl
    have hcons : checkCalls op i now (N + 1) = (op, i, now) :: checkCalls op i now N := rfl
    have hfst : (checkLimit (setLimit (RateLimiter.empty none) op ⟨N, W⟩) op i now).1
        = ⟨true, none⟩ := by
      rw [checkLimit_explicit hlim0, trackedCheck_fst, hent0, windowCheck_fresh]
    have hlim1 : lookupKey op
        ((checkLimit (setLimit (RateLimiter.empty none) op ⟨N, W⟩) op i now).2).limits
        = some ⟨N, W⟩ := by
      rw [checkLimit_explicit hlim0, trackedCheck_limits, hlim0]
    have hent1 : lookupKey (op, resolveIdentifier i)
        ((checkLimit (setLimit (RateLimiter.empty none) op ⟨N, W⟩) op i now).2).entries
        = some ⟨1, now⟩ := by
      rw [checkLimit_explicit hlim0, trackedCheck_entries_self, hent0, windowCheck_fresh]
    have hrest := runChecks_replicate op i now N W hW N 1 _ hlim1 hent1
    rw [hcons]
    simp only [runChecks, List.map_cons]
    rw [hfst, hrest.1, List.map_map]
    have hpush : ((fun r => r.allowed) ∘ fun a =>
          if 1 + a + 1 ≤ N then (⟨true, none⟩ : CheckResult)
          else ⟨false, some (retryAfterSeconds now W now)⟩)
        = fun a => if 1 + a + 1 ≤ N then true else false := by
      funext a
      simp only [Function.comp_apply, apply_ite (fun r : CheckResult => r.allowed)]
    rw [hpush]
    exact range_map_first_allowed N hN
  · intro r hr hfalse
    exact runChecks_rejected _ _ r hr hfalse
  · intro rl f j t
    refine ⟨?_, ?_, ?_⟩
    · intro h
      simp [checkLimitOrThrow, h]
    · intro h
      obtain ⟨ra, hra, h1⟩ := checkLimit_rejected_retryAfter rl f j t h
      refine ⟨ra, ?_, h1⟩
      simp [checkLimitOrThrow, h, hra]
    · by_cases h : (checkLimit rl f j t).1.allowed <;> simp [checkLimitOrThrow, h]
  · intro rl f i1 i2 t u cfg hlim hne
    have hkey : (f, resolveIdentifier i2) ≠ (f, resolveIdentifier i1) := by
      intro hpair
      exact hne (congrArg Prod.snd hpair).symm
    have hpres : lookupKey (f, resolveIdentifier i2)
        ((checkLimit rl f i1 t).2).entries
        = lookupKey (f, resolveIdentifier i2) rl.entries := by
      rw [checkLimit_explicit hlim]
      exact trackedCheck_entries_ne rl cfg f hkey t
    have hlim' : lookupKey f ((checkLimit rl f i1 t).2).limits = some cfg := by
      rw [checkLimit_explicit hlim, trackedCheck_limits, hlim]
    refine ⟨hpres, ?_⟩
    have e1 : (checkLimit ((checkLimit rl f i1 t).2) f i2 u).1
        = (windowCheck cfg (lookupKey (f, resolveIdentifier i2)
            ((checkLimit rl f i1 t).2).entries) u).1 := by
      rw [checkLimit_explicit hlim']
      exact trackedCheck_fst ..
    have e2 : (checkLimit rl f i2 u).1
        = (windowCheck cfg (lookupKey (f, resolveIdentifier i2) rl.entries) u).1 := by
      rw [checkLimit_explicit hlim]
      exact trackedCheck_fst ..
    rw [e1, e2, hpres]

theorem window_correctness_and_throwing_witness :
    ((runChecks (setLimit (RateLimiter.empty none) "login" ⟨2, 1000⟩)
        (checkCalls "login" (.str "u1") 0 3)).1.map (fun r => r.allowed)
      = List.replicate 2 true ++ [false]) ∧
    (checkLimitOrThrow (RateLimiter.empty none) "login" (.str "u1") 0).2
      = (checkLimit (RateLimiter.empty none) "login" (.str "u1") 0).2 ∧
    lookupKey ("login", resolveIdentifier (.str "u2"))
        ((checkLimit (setLimit (RateLimiter.empty none) "login" ⟨2, 1000⟩)
          "login" (.str "u1") 0).2).entries
      = lookupKey ("login", resolveIdentifier (.str "u2"))
          (setLimit (RateLimiter.empty none) "login" ⟨2, 1000⟩).entries :=
  ⟨(window_correctness_and_throwing 2 1000 (by decide) (by decide) "login" (.str "u1") 0).1,
   ((window_correctness_and_throwing 2 1000 (by decide) (by decide) "login"
      (.str "u1") 0).2.2.1 (RateLimiter.empty none) "login" (.str "u1") 0).2.2,
   ((window_correctness_and_throwing 2 1000 (by decide) (by decide) "login"
      (.str "u1") 0).2.2.2 (setLimit (RateLimiter.empty none) "login" ⟨2, 1000⟩)
      "login" (.str "u1") (.str "u2") 0 0 ⟨2, 1000⟩ (by decide) (by decide)).1⟩

theorem runChecks_metrics (op : String) (cfg : RateLimitConfig) (calls : List Call) :
    ∀ (rl : RateLimiter) (m : OperationMetrics),
      (∀ c ∈ calls, c.1 = op) →
      lookupKey op rl.limits = some cfg →
      lookupKey op rl.metrics = some m →
      lookupKey op ((runChecks rl calls).2).limits = some cfg ∧
      (lookupKey op ((runChecks rl calls).2).metrics).map
          (fun mm => (mm.requestCount, mm.limitExceeded))
        = some (m.requestCount + (runChecks rl calls).1.length,
            m.limitExceeded
              + ((runChecks rl calls).1.filter (fun r => !r.allowed)).length) := by
  induction calls with
  | nil =>
    intro rl m hcalls hlim hmet
    simp [runChecks, hlim, hmet]
  | cons c rest ih =>
    intro rl m hcalls hlim hmet
    have hcop : c.1 = op := hcalls c (List.mem_cons_self c rest)
    have hexp : checkLimit rl c.1 c.2.1 c.2.2
        = trackedCheck rl cfg c.1 (c.1, resolveIdentifier c.2.1) c.2.2 :=
      checkLimit_explicit (by rw [hcop]; exact hlim) c.2.1 c.2.2
    have hlim' : lookupKey op ((checkLimit rl c.1 c.2.1 c.2.2).2).limits = some cfg := by
      rw [hexp, trackedCheck_limits]
      exact hlim
    have hmet' : lookupKey op ((checkLimit rl c.1 c.2.1 c.2.2).2).metrics
        = some ⟨m.requestCount + 1,
            m.limitExceeded + (if (checkLimit rl c.1 c.2.1 c.2.2).1.allowed then 0 else 1),
            (windowCheck cfg (lookupKey (c.1, resolveIdentifier c.2.1) rl.entries)
              c.2.2).2.count⟩ := by
      rw [hexp, trackedCheck_fst]
      subst hcop
      rw [trackedCheck_metrics_self, hmet]
      rfl
    have hrest := ih ((checkLimit rl c.1 c.2.1 c.2.2).2) _
      (fun d hd => hcalls d (List.mem_cons_of_mem c hd)) hlim' hmet'
    simp only [runChecks]
    refine ⟨hrest.1, ?_⟩
    rw [hrest.2]
    simp only [List.length_cons, List.filter_cons]
    by_cases hall : (checkLimit rl c.1 c.2.1 c.2.2).1.allowed <;>
      simp [hall] <;> omega

/-- Claim C7: for every operation type, after `k` allowed and `r` rejected
checks (regardless of identifiers), `getMetrics` returns
`requestCount = k + r` and `limitExceeded = r`: every check, even a rejected
one, increments `requestCount`, and only rejections increment `limitExceeded`. -/
theorem metrics_accounting (N W : Nat) (dc : Option RateLimitConfig) (op : String)
    (calls : List Call) (hcalls : ∀ c ∈ calls, c.1 = op) :
    (getMetrics ((runChecks (setLimit (RateLimiter.empty dc) op ⟨N, W⟩) calls).2) op).map
        (fun v => (v.operationType, v.requestCount, v.limitExceeded))
      = some (op,
          ((runChecks (setLimit (RateLimiter.empty dc) op ⟨N, W⟩) calls).1.filter
              (fun r => r.allowed)).length
            + ((runChecks (setLimit (RateLimiter.empty dc) op ⟨N, W⟩) calls).1.filter
              (fun r => !r.allowed)).length,
          ((runChecks (setLimit (RateLimiter.empty dc) op ⟨N, W⟩) calls).1.filter
              (fun r => !r.allowed)).length) := by
  have hlim0 : lookupKey op (setLimit (RateLimiter.empty dc) op ⟨N, W⟩).limits
      = some ⟨N, W⟩ := by
    simp [setLimit, RateLimiter.empty, insertKey, lookupKey]
  have hmet0 : lookupKey op (setLimit (RateLimiter.empty dc) op ⟨N, W⟩).metrics
      = some ⟨0, 0, 0⟩ := by
    simp [setLimit, RateLimiter.empty, insertKey, lookupKey]
  have h := (runChecks_metrics op ⟨N, W⟩ calls
    (setLimit (RateLimiter.empty dc) op ⟨N, W⟩) ⟨0, 0, 0⟩ hcalls hlim0 hmet0).2
  rcases hlk : lookupKey op
      ((runChecks (setLimit (RateLimiter.empty dc) op ⟨N, W⟩) calls).2).metrics with _ | mm
  · rw [hlk] at h
    simp at h
  · rw [hlk] at h
    simp only [Option.map_some] at h
    have hrc : mm.requestCount
        = (runChecks (setLimit (RateLimiter.empty dc) op ⟨N, W⟩) calls).1.length := by
      have := congrArg (fun p => p.map Prod.fst) h
      simpa using this
    have hle : mm.limitExceeded
        = ((runChecks (setLimit (RateLimiter.empty dc) op ⟨N, W⟩) calls).1.filter
            (fun r => !r.allowed)).length := by
      have := congrArg (fun p => p.map Prod.snd) h
      simpa using this
    have hpart := length_filter_partition (fun r : CheckResult => r.allowed)
      (runChecks (setLimit (RateLimiter.empty dc) op ⟨N, W⟩) calls).1
    simp only [getMetrics, hlk, Option.map_some']
    rw [hrc, hle, ← hpart]

theorem metrics_accounting_witness :
    (getMetrics ((runChecks (setLimit (RateLimiter.empty none) "op" ⟨2, 1000⟩)
        (checkCalls "op" (.str "u") 0 3)).2) "op").map
        (fun v => (v.operationType, v.requestCount, v.limitExceeded))
      = some ("op",
          ((runChecks (setLimit (RateLimiter.empty none) "op" ⟨2, 1000⟩)
              (checkCalls "op" (.str "u") 0 3)).1.filter (fun r => r.allowed)).length
            + ((runChecks (setLimit (RateLimiter.empty none) "op" ⟨2, 1000⟩)
              (checkCalls "op" (.str "u") 0 3)).1.filter (fun r => !r.allowed)).length,
          ((runChecks (setLimit (RateLimiter.empty none) "op" ⟨2, 1000⟩)
              (checkCalls "op" (.str "u") 0 3)).1.filter (fun r => !r.allowed)).length) :=
  metrics_accounting 2 1000 none "op" (checkCalls "op" (.str "u") 0 3) (by decide)

end RateLimit

end Spec2Proof
